import Mathlib

/-!
Verification development for the pre-evaluation loan-modality service
(`pre-evaluation.service.ts`).  The TypeScript source is shallowly embedded:
JavaScript numbers are modelled as `Option ℚ` (`none` = NaN; finite doubles
idealized as rationals, infinities out of scope for the operations used),
fallible NATS calls are modelled by an explicit environment of
`Except Unit`-valued responses, and async control flow becomes explicit
`Except`/pure value passing.
-/

namespace Svc

/-- A JavaScript value as it can appear in a raw data row: a number, a string,
or `null`.  A key that is absent from the row plays the role of `undefined`. -/
inductive JSValue where
  | num (q : ℚ)
  | str (s : String)
  | null
deriving DecidableEq, Repr

/-- JavaScript number: a rational (idealized finite double) or `none` for NaN. -/
abbrev NumF := Option ℚ

/-- JS `x <= y` comparison: false whenever either side is NaN. -/
def nfLe (x y : NumF) : Bool :=
  match x, y with
  | some a, some b => decide (a ≤ b)
  | _, _ => false

/-- JS `x > y` comparison: false whenever either side is NaN. -/
def nfGt (x y : NumF) : Bool :=
  match x, y with
  | some a, some b => decide (b < a)
  | _, _ => false

/-- JS `x === y` on numbers: false whenever either side is NaN. -/
def nfEq (x y : NumF) : Bool :=
  match x, y with
  | some a, some b => a == b
  | _, _ => false

/-- JS `a ?? b` (nullish coalescing) on optional values. -/
def jsNullish (a b : Option α) : Option α :=
  match a with
  | some x => some x
  | none => b

/-- JS `Math.round`: round to the nearest integer, halves toward plus infinity. -/
def jsRound (x : ℚ) : ℤ := ⌊x + 1 / 2⌋

/-- JS `Math.floor`. -/
def jsFloorQ (x : ℚ) : ℤ := ⌊x⌋

/-- Lower-casing of one character, modelling `String.prototype.toLowerCase`
for ASCII plus the Spanish Latin-1 letters that occur in this service. -/
def jsToLowerChar (c : Char) : Char :=
  if 'A' ≤ c ∧ c ≤ 'Z' then Char.ofNat (c.toNat + 32)
  else if c = 'Á' then 'á'
  else if c = 'É' then 'é'
  else if c = 'Í' then 'í'
  else if c = 'Ó' then 'ó'
  else if c = 'Ú' then 'ú'
  else if c = 'Ü' then 'ü'
  else if c = 'Ñ' then 'ñ'
  else c

/-- JS `String.prototype.toLowerCase` (restricted as in `jsToLowerChar`). -/
def jsToLower (s : String) : String := ⟨s.data.map jsToLowerChar⟩

/-- One step of `normalize('NFD').replace(/[̀-ͯ]/g, '')` on a
lower-cased character: the accented Spanish letters decompose into a base
letter plus a combining mark in the stripped range, so they map to the base
letter; everything else is unchanged. -/
def stripDiacriticChar (c : Char) : Char :=
  if c = 'á' then 'a'
  else if c = 'é' then 'e'
  else if c = 'í' then 'i'
  else if c = 'ó' then 'o'
  else if c = 'ú' then 'u'
  else if c = 'ü' then 'u'
  else if c = 'ñ' then 'n'
  else c

/-- Does `pat` occur at the head of `l`? -/
def hasPrefixChars : List Char → List Char → Bool
  | [], _ => true
  | _ :: _, [] => false
  | p :: ps, c :: cs => p == c && hasPrefixChars ps cs

/-- First index (from `i`) at which `pat` occurs in `l`, if any. -/
def firstIdxChars (pat : List Char) : List Char → Nat → Option Nat
  | [], i => if hasPrefixChars pat [] then some i else none
  | c :: cs, i =>
    if hasPrefixChars pat (c :: cs) then some i else firstIdxChars pat cs (i + 1)

/-- JS `String.prototype.includes`. -/
def hasSubstr (s pat : String) : Bool := (firstIdxChars pat.data s.data 0).isSome

/-- JS `String.prototype.indexOf`: index of the first occurrence, `-1` if none. -/
def jsIndexOf (s pat : String) : Int :=
  match firstIdxChars pat.data s.data 0 with
  | some n => (n : Int)
  | none => -1

/-- `normalize` from the service: lower-case, then NFD-decompose and strip
combining diacritics (see `stripDiacriticChar`). -/
def normalize (s : String) : String := ⟨(jsToLower s).data.map stripDiacriticChar⟩

/-- JS `\s` whitespace (restricted to the common ASCII whitespace characters). -/
def jsWs (c : Char) : Bool := c = ' ' || c = '\t' || c = '\n' || c = '\r'

/-- Drop one or more whitespace characters; `none` if the list does not start
with whitespace (models a mandatory `\s+`). -/
def dropWsPlus (l : List Char) : Option (List Char) :=
  match l with
  | [] => none
  | c :: cs => if jsWs c then some (cs.dropWhile jsWs) else none

/-- Does the (already lower-cased) character list start with
`fondo\s+de\s+retiro`? -/
def fdrAt (l : List Char) : Bool :=
  if hasPrefixChars "fondo".data l then
    match dropWsPlus (l.drop 5) with
    | none => false
    | some l₁ =>
      if hasPrefixChars "de".data l₁ then
        match dropWsPlus (l₁.drop 2) with
        | none => false
        | some l₂ => hasPrefixChars "retiro".data l₂
      else false
  else false

/-- Does `p` hold at some suffix of `l`? -/
def anyPosition (p : List Char → Bool) : List Char → Bool
  | [] => p []
  | c :: cs => p (c :: cs) || anyPosition p cs

/-- The regex test `/fondo\s+de\s+retiro/i.test(s)`. -/
def matchesFdr (s : String) : Bool := anyPosition fdrAt (jsToLower s).data

/-- ASCII digit test. -/
def isDigitCh (c : Char) : Bool := '0' ≤ c && c ≤ '9'

/-- Numeric value of a list of ASCII digits. -/
def natOfDigits (ds : List Char) : Nat :=
  ds.foldl (fun a c => a * 10 + (c.toNat - 48)) 0

/-- Parse an unsigned decimal significand (`123`, `123.`, `123.45`, `.45`)
from the head of the list; returns the value and the unconsumed rest. -/
def parseUnsignedDec (l : List Char) : Option (ℚ × List Char) :=
  let ip := l.takeWhile isDigitCh
  let r₁ := l.dropWhile isDigitCh
  match ip, r₁ with
  | [], '.' :: r₂ =>
    let fp := r₂.takeWhile isDigitCh
    if fp.isEmpty then none
    else some ((natOfDigits fp : ℚ) / ((10 : ℚ) ^ fp.length), r₂.dropWhile isDigitCh)
  | [], _ => none
  | _, '.' :: r₂ =>
    let fp := r₂.takeWhile isDigitCh
    some ((natOfDigits ip : ℚ) + (natOfDigits fp : ℚ) / ((10 : ℚ) ^ fp.length),
      r₂.dropWhile isDigitCh)
  | _, _ => some ((natOfDigits ip : ℚ), r₁)

/-- Parse an optional exponent part (`e5`, `E-3`, ...).  If the characters
after `e` do not form a valid exponent, nothing is consumed (as in JS). -/
def parseExpPart (q : ℚ) (l : List Char) : ℚ × List Char :=
  match l with
  | 'e' :: r | 'E' :: r =>
    let signApply : Bool → ℚ → ℚ := fun neg v => if neg then 1 / v else v
    let core : Bool → List Char → ℚ × List Char := fun neg r₂ =>
      let ds := r₂.takeWhile isDigitCh
      if ds.isEmpty then (q, l)
      else (q * signApply neg ((10 : ℚ) ^ natOfDigits ds), r₂.dropWhile isDigitCh)
    match r with
    | '+' :: r₂ => core false r₂
    | '-' :: r₂ => core true r₂
    | r₂ => core false r₂
  | _ => (q, l)

/-- Parse a signed decimal number with optional exponent from the head of the
list. -/
def parseSignedDec (l : List Char) : Option (ℚ × List Char) :=
  let go : Bool → List Char → Option (ℚ × List Char) := fun neg l₁ =>
    match parseUnsignedDec l₁ with
    | none => none
    | some (q, r) =>
      let (q₂, r₂) := parseExpPart q r
      some ((if neg then -q₂ else q₂), r₂)
  match l with
  | '+' :: r => go false r
  | '-' :: r => go true r
  | _ => go false l

/-- JS `Number.parseFloat` on a string: skip leading whitespace, parse the
longest numeric prefix, ignore the rest; NaN if no numeric prefix.
(Hexadecimal and `Infinity` forms are outside the scope of this model.) -/
def jsParseFloatStr (s : String) : NumF :=
  match parseSignedDec (s.data.dropWhile jsWs) with
  | some (q, _) => some q
  | none => none

/-- JS `Number()` conversion of a string: whitespace-only is 0; otherwise the
whole (trimmed) string must be a numeric literal, else NaN. -/
def jsNumberOfString (s : String) : NumF :=
  let t := (s.data.dropWhile jsWs).reverse.dropWhile jsWs |>.reverse
  if t.isEmpty then some 0
  else
    match parseSignedDec t with
    | some (q, []) => some q
    | _ => none

/-- JS `Number.parseFloat` applied to a row value.  A numeric value round-trips
through its decimal string representation, so it parses to itself; `null` never
reaches this call in the embedded code but would stringify to `"null"` = NaN. -/
def jsParseFloat : JSValue → NumF
  | .num q => some q
  | .str s => jsParseFloatStr s
  | .null => none

/-- JS `Number()` applied to a value (`Number(null) = 0`). -/
def jsToNumber : JSValue → NumF
  | .num q => some q
  | .str s => jsNumberOfString s
  | .null => some 0

/-- `calculateSubsector(stateType, stateName)`: classification of the
affiliate subsector.  Note that `stateType` is compared with `===` (exact,
case-sensitive), while the `stateName` regex tests carry the `i` flag. -/
def calculateSubsector (stateType stateName : String) : String :=
  if stateType = "Activo" then
    if hasSubstr (jsToLower stateName) "servicio" then "Servicio"
    else if hasSubstr (jsToLower stateName) "comision"
        || hasSubstr (jsToLower stateName) "comisión" then "Comision"
    else if hasSubstr (jsToLower stateName) "disponibilidad" then "Disponibilidad"
    else "Otro"
  else if stateType = "Pasivo" then
    if hasSubstr (jsToLower stateName) "fallecido" then "Fallecido"
    else if hasSubstr (jsToLower stateName) "jubilado invalidez" then "Jubilado invalidez"
    else if hasSubstr (jsToLower stateName) "jubilado" then "Jubilado"
    else "Otro"
  else if stateType = "Baja" || hasSubstr (jsToLower stateName) "baja" then "Baja"
  else "Otro"

/-- `shouldExcludeModality`: reprogramaciones, refinanciamiento and descuento
are excluded outright. -/
def shouldExcludeModality (modalityName : String) : Bool :=
  let normalizedName := normalize modalityName
  if hasSubstr normalizedName "reprogramación" || hasSubstr normalizedName "reprogramacion" then
    true
  else if hasSubstr normalizedName "refinanciamiento" || hasSubstr normalizedName "descuento" then
    true
  else false

/-- `isValidFondoRetiro`: a name containing both `fondo` and `retiro` must also
contain `sector` strictly before `fondo`; other names are not concerned. -/
def isValidFondoRetiro (modalityName : String) : Bool :=
  let normalizedName := normalize modalityName
  if !(hasSubstr normalizedName "fondo") || !(hasSubstr normalizedName "retiro") then
    true
  else
    hasSubstr normalizedName "sector"
      && jsIndexOf normalizedName "sector" < jsIndexOf normalizedName "fondo"

/-- `getModalitySortOrder`: priority key derived from the name, first matching
token wins. -/
def getModalitySortOrder (name : String) : Nat :=
  let normalizedName := normalize name
  if hasSubstr normalizedName "anticipo" then 1
  else if hasSubstr normalizedName "corto" then 2
  else if hasSubstr normalizedName "largo" then 3
  else if hasSubstr normalizedName "estacional" then 4
  else 5

/-- `matchesActiveConditions`: inclusion rules for active affiliates.  The
first argument is the already-normalized modality name. -/
def matchesActiveConditions (modalityName normalizedSubsector category : String)
    (is85or100 : Bool) : Bool :=
  if hasSubstr modalityName "oportuno" then true
  else if is85or100 && hasSubstr modalityName "fondo" && hasSubstr modalityName "retiro" then
    true
  else if normalizedSubsector = "servicio" then
    hasSubstr modalityName "anticipo sector activo"
      || (hasSubstr modalityName "corto plazo" && hasSubstr modalityName "sector activo")
      || (hasSubstr modalityName "largo plazo" && hasSubstr modalityName "sector activo")
  else if normalizedSubsector = "comision" then
    (hasSubstr modalityName "largo plazo" && hasSubstr modalityName "comisión")
      || hasSubstr modalityName "anticipo sector activo"
      || (hasSubstr modalityName "corto plazo" && hasSubstr modalityName "sector activo")
  else if normalizedSubsector = "disponibilidad" then
    (hasSubstr modalityName "anticipo" && hasSubstr modalityName "disponibilidad")
      || (hasSubstr modalityName "corto plazo" && hasSubstr modalityName "disponibilidad")
      || (hasSubstr modalityName "largo plazo" && hasSubstr modalityName "disponibilidad")
  else false

/-- `matchesPassiveConditions`: inclusion rules for passive affiliates. -/
def matchesPassiveConditions (modalityName normalizedPensionEntity : String) : Bool :=
  if hasSubstr modalityName "estacional" then true
  else
    let isSenasir := hasSubstr normalizedPensionEntity "senasir"
    let isGestora := hasSubstr normalizedPensionEntity "gestora"
    if !isSenasir && !isGestora then false
    else
      let entityName := if isSenasir then "senasir" else "gestora"
      (hasSubstr modalityName "anticipo" && hasSubstr modalityName entityName)
        || (hasSubstr modalityName "corto" && hasSubstr modalityName "plazo"
            && hasSubstr modalityName entityName)
        || (hasSubstr modalityName "largo" && hasSubstr modalityName "plazo"
            && hasSubstr modalityName entityName)

/-- A raw catalog modality as delivered by `procedureModalities.findAll`. -/
structure ModalityRaw where
  id : Nat
  procedure_type_id : Nat
  name : String
  isValid : Option Bool
  is_valid : Option Bool
deriving DecidableEq, Repr

/-- A catalog modality enriched with its normalized name and sort key (the
spread `{...modality, normalizedName, sortOrder}` in the source). -/
structure EnrichedModality where
  base : ModalityRaw
  normalizedName : String
  sortOrder : Nat
deriving DecidableEq, Repr

/-- The enrichment step of `filterModalitiesByAffiliate`. -/
def enrichModality (m : ModalityRaw) : EnrichedModality :=
  { base := m, normalizedName := normalize m.name, sortOrder := getModalitySortOrder m.name }

/-- The filter predicate of `filterModalitiesByAffiliate` (the body of the
`.filter` callback). -/
def eligiblePred (isActive isPassive : Bool)
    (normalizedSubsector normalizedPensionEntity category : String) (is85or100 : Bool)
    (m : EnrichedModality) : Bool :=
  if shouldExcludeModality m.base.name then false
  else if isActive && !(isValidFondoRetiro m.base.name) then false
  else if isActive then
    matchesActiveConditions m.normalizedName normalizedSubsector category is85or100
  else if isPassive then
    matchesPassiveConditions m.normalizedName normalizedPensionEntity
  else hasSubstr m.normalizedName "oportuno"

/-- Ordering used by the final `.sort((a, b) => a.sortOrder - b.sortOrder)`. -/
def modLE (a b : EnrichedModality) : Prop := a.sortOrder ≤ b.sortOrder

instance : DecidableRel modLE :=
  fun a b => inferInstanceAs (Decidable (a.sortOrder ≤ b.sortOrder))

instance : IsTotal EnrichedModality modLE :=
  ⟨fun a b => Nat.le_total a.sortOrder b.sortOrder⟩

instance : IsTrans EnrichedModality modLE :=
  ⟨fun _ _ _ h₁ h₂ => Nat.le_trans h₁ h₂⟩

/-- The map-and-filter stage of `filterModalitiesByAffiliate`, before the
final sort (named so the ordering theorems can refer to it). -/
def eligibleBeforeSort (all : List ModalityRaw)
    (stateType subsector pensionEntity category : String) : List EnrichedModality :=
  let normalizedSubsector := jsToLower subsector
  let normalizedPensionEntity := jsToLower pensionEntity
  let is85or100 := category = "85%" || category = "100%"
  let isActive := hasSubstr stateType "activo"
  let isPassive := hasSubstr stateType "pasivo"
  (all.map enrichModality).filter
    (eligiblePred isActive isPassive normalizedSubsector normalizedPensionEntity
      category is85or100)

/-- `filterModalitiesByAffiliate`: enrich, filter by the affiliate profile and
sort by `sortOrder`.  The JS `Array.prototype.sort` is stable, which insertion
sort models faithfully. -/
def filterModalitiesByAffiliate (all : List ModalityRaw)
    (stateType subsector pensionEntity category : String) : List EnrichedModality :=
  (eligibleBeforeSort all stateType subsector pensionEntity category).insertionSort modLE

/-- Raw `affiliateState.stateType` object. -/
structure StateTypeRaw where
  name : Option String
deriving DecidableEq, Repr

/-- Raw `affiliateState` object. -/
structure AffiliateStateRaw where
  name : Option String
  stateType : Option StateTypeRaw
deriving DecidableEq, Repr

/-- Raw named sub-object (pension entity, category, degree). -/
structure NamedRef where
  id : Option Nat
  name : Option String
deriving DecidableEq, Repr

/-- Raw affiliate record from `affiliate.findOneData`. -/
structure AffiliateRaw where
  id : Option Nat
  affiliateState : Option AffiliateStateRaw
  pensionEntity : Option NamedRef
  pension_entity_name : Option String
  category : Option NamedRef
  degree : Option NamedRef
  dateLastContribution : Option String
  dateLastContributionReinstatement : Option String
deriving DecidableEq, Repr

/-- JS truthiness of `affiliate?.id`: the record exists, has an id, and the id
is not the falsy `0`. -/
def affiliateHasId (a : AffiliateRaw) : Bool :=
  match a.id with
  | some n => n ≠ 0
  | none => false

/-- Person record used by `resolvePensionEntityName` (the
`personResp?.data ?? personResp ?? {}` unwrapping is folded into the record;
a null response behaves as the empty object, i.e. both fields absent). -/
structure PersonRaw where
  pensionEntityId : Option Nat
  pension_entity_id : Option Nat
deriving DecidableEq, Repr

/-- Pension entity record from `pensionEntities.findOne` (after the
`pensionResp?.data ?? pensionResp ?? {}` unwrapping; a missing `isActive`
is falsy and hence modelled as `false`). -/
structure PensionRaw where
  isActive : Bool
  type : Option String
  name : Option String
deriving DecidableEq, Repr

/-- Raw loan-parameter row.  The numeric columns live in `fields` (looked up
by their JS property names); the two possible id properties read by
`createParametersMap` are modelled separately since they are used as map keys. -/
structure RawParamsRow where
  procedureModalityId : Option Nat
  procedure_modality_id : Option Nat
  fields : List (String × JSValue)
deriving DecidableEq, Repr

/-- Raw loan-interest row (`annualInterest ?? annual_interest`). -/
structure InterestRaw where
  annualInterest : Option JSValue
  annual_interest : Option JSValue
deriving DecidableEq, Repr

/-- Response of `retirementFundAverages.findByDegreeAndCategory`. -/
structure FundData where
  average_amount : Option JSValue
deriving DecidableEq, Repr

/-- Envelope of the fund-average lookup (`{serviceStatus, data}`). -/
structure FundAvgResp where
  serviceStatus : Bool
  data : Option FundData
deriving DecidableEq, Repr

/-- The abstract NATS capability: one field per topic used by the service.
`Except.error ()` models a rejected promise (communication failure); for
topics whose payload the code unwraps with `resp?.data ?? resp ?? []`, the
environment directly supplies the unwrapped value. -/
structure Env where
  findAffiliate : Nat → Except Unit (Option AffiliateRaw)
  findModalities : Except Unit (List ModalityRaw)
  personIdByAffiliate : Nat → Except Unit (Option Nat)
  personFindOne : Nat → Except Unit PersonRaw
  pensionEntitiesFindOne : Nat → Except Unit PensionRaw
  findBatchParams : List Nat → Except Unit (List RawParamsRow)
  findInterests : Nat → Except Unit (List InterestRaw)
  findModalityName : Nat → Except Unit (Option String)
  findFundAvg : Nat → Nat → Except Unit FundAvgResp

/-- The profile object returned by `getAffiliateInfo`. -/
structure AffiliateInfo where
  id : Option Nat
  affiliateId : Nat
  affiliateState : Option AffiliateStateRaw
  affiliate_state_type : String
  subsector : String
  pensionEntity : Option NamedRef
  pension_entity_name : Option String
  category : Option String
deriving DecidableEq, Repr

/-- `getAffiliateInfo`: fetch the raw affiliate, derive the subsector and pass
the state through.  Every failure inside the `try` block (NATS rejection or
the `Afiliado no encontrado` throw) is caught by the surrounding `catch` and
re-thrown as `Error al consultar afiliado`.  The active-without-contributions
check only logs a warning and is therefore behaviorally invisible here. -/
def getAffiliateInfo (env : Env) (affiliateId : Nat) : Except String AffiliateInfo :=
  match env.findAffiliate affiliateId with
  | .error _ => .error "Error al consultar afiliado"
  | .ok none => .error "Error al consultar afiliado"
  | .ok (some a) =>
    if !affiliateHasId a then .error "Error al consultar afiliado"
    else
      let affiliateStateName := (a.affiliateState.bind (fun s => s.name)).getD ""
      let affiliateStateType :=
        ((a.affiliateState.bind (fun s => s.stateType)).bind (fun t => t.name)).getD ""
      let pensionEntityName :=
        jsNullish (a.pensionEntity.bind (fun p => p.name)) a.pension_entity_name
      let category := a.category.bind (fun c => c.name)
      let subsector := calculateSubsector affiliateStateType affiliateStateName
      .ok
        { id := a.id, affiliateId := affiliateId, affiliateState := a.affiliateState,
          affiliate_state_type := affiliateStateType, subsector := subsector,
          pensionEntity := a.pensionEntity, pension_entity_name := pensionEntityName,
          category := category }

/-- `resolvePensionEntityName`: cascade affiliate → person → pension entity;
any failure or missing link degrades to `null`. -/
def resolvePensionEntityName (env : Env) (affiliateId : Nat) : Option String :=
  match env.personIdByAffiliate affiliateId with
  | .error _ => none
  | .ok none => none
  | .ok (some personId) =>
    match env.personFindOne personId with
    | .error _ => none
    | .ok personData =>
      match jsNullish personData.pensionEntityId personData.pension_entity_id with
      | none => none
      | some pensionEntityId =>
        match env.pensionEntitiesFindOne pensionEntityId with
        | .error _ => none
        | .ok pensionData =>
          if pensionData.isActive then jsNullish pensionData.type pensionData.name
          else none

/-- Result envelope of `getRetirementFundAverage`. -/
structure FundAvgResult where
  error : String
  message : String
  payload : Option FundData
  serviceStatus : Bool
deriving DecidableEq, Repr

/-- JS truthiness of a numeric id read with `affiliate.degree?.id` (`0` is
falsy and rejected by `if (!degreeId || !categoryId)`). -/
def truthyId (o : Option Nat) : Option Nat :=
  match o with
  | some 0 => none
  | x => x

/-- `getRetirementFundAverage`: soft-failing fund-average lookup; never
throws.  The `Afiliado no encontrado` throw inside the `try` is caught by the
local `catch` and becomes the internal-error envelope. -/
def getRetirementFundAverage (env : Env) (affiliateId : Nat) : FundAvgResult :=
  match env.findAffiliate affiliateId with
  | .error _ =>
    { error := "true", message := "Error interno del servidor", payload := none,
      serviceStatus := false }
  | .ok none =>
    { error := "true", message := "Error interno del servidor", payload := none,
      serviceStatus := false }
  | .ok (some a) =>
    if !affiliateHasId a then
      { error := "true", message := "Error interno del servidor", payload := none,
        serviceStatus := false }
    else
      match truthyId (a.degree.bind (fun d => d.id)),
          truthyId (a.category.bind (fun c => c.id)) with
      | some degreeId, some categoryId =>
        (match env.findFundAvg degreeId categoryId with
        | .error _ =>
          { error := "true", message := "Error interno del servidor", payload := none,
            serviceStatus := false }
        | .ok result =>
          if !result.serviceStatus || result.data.isNone then
            { error := "true", message := "No se encontró promedio de fondo de retiro",
              payload := none, serviceStatus := false }
          else
            { error := "false",
              message := "Promedio de fondo de retiro obtenido exitosamente",
              payload := result.data, serviceStatus := true })
      | _, _ =>
        { error := "true", message := "Afiliado no tiene grado o categoría definidos",
          payload := none, serviceStatus := false }

/-- `Number(retirementAvgResp?.payload?.average_amount ?? retirementAvgResp?.payload ?? 0)`:
with a null payload the fallback chain ends at `Number(0) = 0`; with a payload
lacking `average_amount` the payload object itself is converted, giving NaN. -/
def avgValueOf (res : FundAvgResult) : NumF :=
  match res.payload with
  | none => some 0
  | some fd =>
    match fd.average_amount with
    | none => none
    | some v => jsToNumber v

/-- The decision chain of `adjustRetirementFundAmount` after both lookups
resolved (modality name and fund-average value). -/
def adjustCore (modalityName : String) (avgValue minimumAmount maximumAmount : NumF) :
    NumF :=
  if !matchesFdr modalityName then maximumAmount
  else if nfLe avgValue (some 0) then maximumAmount
  else if nfEq minimumAmount (some 0) && nfEq maximumAmount (some 70000)
      && nfEq avgValue (some 130000) then maximumAmount
  else if nfGt maximumAmount avgValue then avgValue
  else maximumAmount

/-- `adjustRetirementFundAmount`: fetch the modality name and fund average,
then apply `adjustCore`; any rejection is caught and leaves the maximum
unchanged (`getRetirementFundAverage` itself never rejects). -/
def adjustRetirementFundAmount (env : Env) (procedureModalityId affiliateId : Nat)
    (minimumAmount maximumAmount : NumF) : NumF :=
  match env.findModalityName procedureModalityId with
  | .error _ => maximumAmount
  | .ok nameOpt =>
    let retirementAvgResp := getRetirementFundAverage env affiliateId
    let modalityName := nameOpt.getD ""
    adjustCore modalityName (avgValueOf retirementAvgResp) minimumAmount maximumAmount

/-- Property lookup in a raw row (`r[k]`; absent key = `undefined`). -/
def jsLookup (r : List (String × JSValue)) (k : String) : Option JSValue :=
  (r.find? (fun e => e.1 == k)).map (fun e => e.2)

/-- The `get(keys)` helper of `mapToLoanParameters`: first present non-null
key wins, parsed with `Number.parseFloat`; otherwise 0. -/
def getNum (r : List (String × JSValue)) : List String → NumF
  | [] => some 0
  | k :: ks =>
    match jsLookup r k with
    | some v => if v = JSValue.null then getNum r ks else jsParseFloat v
    | none => getNum r ks

/-- `get(['loan_month_term', 'loanMonthTerm']) || 0`: the `|| 0` coerces both
NaN and 0 to 0, so the result is a genuine rational. -/
def extractLoanMonthTerm (raw : RawParamsRow) : ℚ :=
  (getNum raw.fields ["loan_month_term", "loanMonthTerm"]).getD 0

/-- `interestData ? Number(interestData.annualInterest ?? interestData.annual_interest ?? 0) : 0`. -/
def extractAnnualInterest (interestData : Option InterestRaw) : NumF :=
  match interestData with
  | some i => jsToNumber ((jsNullish i.annualInterest i.annual_interest).getD (.num 0))
  | none => some 0

/-- The computed parameters object (`LoanParametersDto`). -/
structure LoanParametersDto where
  debtIndex : NumF
  guarantors : NumF
  maxLenders : NumF
  minLenderCategory : NumF
  maxLenderCategory : NumF
  maximumAmountModality : NumF
  minimumAmountModality : NumF
  maximumTermModality : NumF
  minimumTermModality : NumF
  loanMonthTerm : NumF
  coveragePercentage : NumF
  annualInterest : NumF
  periodInterest : NumF
deriving DecidableEq, Repr

/-- `mapToLoanParameters`: extract the numeric fields, derive the period
interest (round to 4 decimals, then floor to 2) and, when an affiliate id is
supplied (and truthy), run the retirement-fund adjustment on the maximum. -/
def mapToLoanParameters (env : Env) (raw : RawParamsRow) (procedureModalityId : Nat)
    (affiliateId : Option Nat) (interestData : Option InterestRaw) : LoanParametersDto :=
  let loanMonthTerm : ℚ := extractLoanMonthTerm raw
  let annualInterest : NumF := extractAnnualInterest interestData
  let periodsPerYear : ℚ := if loanMonthTerm > 0 then 12 / loanMonthTerm else 12
  let periodInterestRaw : NumF := annualInterest.map (fun a => a / periodsPerYear)
  let cleanedValue : NumF := periodInterestRaw.map (fun x => ((jsRound (x * 10000) : ℚ)) / 10000)
  let periodInterest : NumF := cleanedValue.map (fun x => ((jsFloorQ (x * 100) : ℚ)) / 100)
  let minimumAmountModality := getNum raw.fields ["minimum_amount_modality", "minimumAmountModality"]
  let maximumAmountRawVal := getNum raw.fields ["maximum_amount_modality", "maximumAmountModality"]
  let maximumAmountModality :=
    match affiliateId with
    | some aid =>
      if aid ≠ 0 then
        adjustRetirementFundAmount env procedureModalityId aid minimumAmountModality
          maximumAmountRawVal
      else maximumAmountRawVal
    | none => maximumAmountRawVal
  { debtIndex := getNum raw.fields ["debt_index", "debtIndex"],
    guarantors := getNum raw.fields ["guarantors"],
    maxLenders := getNum raw.fields ["max_lenders", "maxLenders"],
    minLenderCategory := getNum raw.fields ["min_lender_category", "minLenderCategory"],
    maxLenderCategory := getNum raw.fields ["max_lender_category", "maxLenderCategory"],
    maximumAmountModality := maximumAmountModality,
    minimumAmountModality := minimumAmountModality,
    maximumTermModality := getNum raw.fields ["maximum_term_modality", "maximumTermModality"],
    minimumTermModality := getNum raw.fields ["minimum_term_modality", "minimumTermModality"],
    loanMonthTerm := some loanMonthTerm,
    coveragePercentage := getNum raw.fields ["coverage_percentage", "coveragePercentage"],
    annualInterest := annualInterest,
    periodInterest := periodInterest }

/-- `getBatchLoanParameters`: one bulk request; failure degrades to `[]`. -/
def getBatchLoanParameters (env : Env) (procedureModalityIds : List Nat) :
    List RawParamsRow :=
  match env.findBatchParams procedureModalityIds with
  | .ok l => l
  | .error _ => []

/-- One entry of the interests batch. -/
structure InterestsItem where
  procedureModalityId : Nat
  interests : List InterestRaw
deriving DecidableEq, Repr

/-- `getBatchLoanInterests`: one request per id, each individually protected by
`.catch(() => ({data: []}))`, so a failing id degrades to an empty list. -/
def getBatchLoanInterests (env : Env) (procedureModalityIds : List Nat) :
    List InterestsItem :=
  procedureModalityIds.map (fun id =>
    { procedureModalityId := id,
      interests :=
        match env.findInterests id with
        | .ok l => l
        | .error _ => [] })

/-- `Map.set` on an insertion-ordered association list: replace in place when
the key exists, append otherwise. -/
def mapSet (m : List (Nat × α)) (k : Nat) (v : α) : List (Nat × α) :=
  if m.any (fun e => e.1 == k) then
    m.map (fun e => if e.1 == k then (k, v) else e)
  else m ++ [(k, v)]

/-- `Map.get`. -/
def mapGet (m : List (Nat × α)) (k : Nat) : Option α :=
  (m.find? (fun e => e.1 == k)).map (fun e => e.2)

/-- `createParametersMap`: key each row by its (either-spelling) modality id. -/
def createParametersMap (paramsList : List RawParamsRow) : List (Nat × RawParamsRow) :=
  paramsList.foldl
    (fun acc p =>
      match jsNullish p.procedureModalityId p.procedure_modality_id with
      | some id => mapSet acc id p
      | none => acc)
    []

/-- `createInterestsMap`: keep the first interest record per modality (ids are
always present by construction of the batch items). -/
def createInterestsMap (interestsList : List InterestsItem) :
    List (Nat × InterestRaw) :=
  interestsList.foldl
    (fun acc item =>
      match item.interests with
      | [] => acc
      | i :: _ => mapSet acc item.procedureModalityId i)
    []

/-- The response record of `getLoanModalities`. -/
structure LoanModalityResponseDto where
  id : Nat
  affiliateId : Nat
  procedure_modality_id : Nat
  procedure_type_id : Nat
  name : String
  category : String
  pension_entity_name : Option String
  affiliate_state_type : String
  subsector : String
  parameters : Option LoanParametersDto
deriving DecidableEq, Repr

/-- Everything `getLoanModalities` does after its two awaited lookups have
succeeded: from this point on every further lookup degrades internally, so the
remainder is a total function of the environment. -/
def loanModalitiesCore (env : Env) (affiliateId : Nat) (affiliate : AffiliateInfo)
    (modalitiesAll : List ModalityRaw) : List LoanModalityResponseDto :=
  let stateTypeName :=
    (((affiliate.affiliateState.bind (fun s => s.stateType)).bind (fun t => t.name)).getD
      affiliate.affiliate_state_type)
  if stateTypeName = "" || hasSubstr (jsToLower stateTypeName) "baja" then []
  else
    let validModalities := modalitiesAll.filter
      (fun m => m.isValid == some true || m.is_valid == some true)
    let subsector := affiliate.subsector
    let category := affiliate.category.getD ""
    let pensionEntityNameRaw :=
      match jsNullish (affiliate.pensionEntity.bind (fun p => p.name))
          affiliate.pension_entity_name with
      | some n => some n
      | none => resolvePensionEntityName env affiliateId
    let pensionEntity := pensionEntityNameRaw.getD ""
    let filtered := filterModalitiesByAffiliate validModalities (jsToLower stateTypeName)
      subsector pensionEntity category
    if filtered.isEmpty then []
    else
      let procedureModalityIds := filtered.map (fun m => m.base.id)
      let paramsList := getBatchLoanParameters env procedureModalityIds
      let interestsList := getBatchLoanInterests env procedureModalityIds
      let paramsMap := createParametersMap paramsList
      let interestsMap := createInterestsMap interestsList
      filtered.mapIdx (fun index modality =>
        let procedureModalityId := modality.base.id
        let paramsData := mapGet paramsMap procedureModalityId
        let interestData := mapGet interestsMap procedureModalityId
        let mappedParams :=
          match paramsData with
          | some p =>
            some (mapToLoanParameters env p procedureModalityId (some affiliateId)
              interestData)
          | none => none
        { id := index + 1, affiliateId := affiliateId,
          procedure_modality_id := procedureModalityId,
          procedure_type_id := modality.base.procedure_type_id,
          name := modality.base.name, category := category,
          pension_entity_name := pensionEntityNameRaw,
          affiliate_state_type := stateTypeName, subsector := subsector,
          parameters := mappedParams })

/-- `getLoanModalities`: the affiliate lookup and the catalog fetch are the
only two awaited operations whose rejection propagates to the caller; the
`if (!affiliate) return []` guard of the source is unreachable because
`getAffiliateInfo` either returns a record or throws. -/
def getLoanModalities (env : Env) (affiliateId : Nat) :
    Except String (List LoanModalityResponseDto) :=
  match getAffiliateInfo env affiliateId with
  | .error e => .error e
  | .ok affiliate =>
    match env.findModalities with
    | .error _ => .error "upstream failure"
    | .ok modalitiesAll => .ok (loanModalitiesCore env affiliateId affiliate modalitiesAll)

/-! Concrete fixtures used by the witnesses and counterexamples. -/

/-- A neutral environment: the affiliate directory returns no record and every
other lookup returns an empty or inactive value. -/
def emptyEnv : Env :=
  { findAffiliate := fun _ => .ok none, findModalities := .ok [],
    personIdByAffiliate := fun _ => .ok none,
    personFindOne := fun _ => .ok ⟨none, none⟩,
    pensionEntitiesFindOne := fun _ => .ok ⟨false, none, none⟩,
    findBatchParams := fun _ => .ok [], findInterests := fun _ => .ok [],
    findModalityName := fun _ => .ok none, findFundAvg := fun _ _ => .ok ⟨false, none⟩ }

/-- A well-formed active affiliate record. -/
def affStd : AffiliateRaw :=
  { id := some 5, affiliateState := some ⟨some "En Servicio", some ⟨some "Activo"⟩⟩,
    pensionEntity := none, pension_entity_name := none,
    category := some ⟨some 3, some "100%"⟩, degree := some ⟨some 2, none⟩,
    dateLastContribution := none, dateLastContributionReinstatement := none }

/-- Environment in which the affiliate lookup succeeds. -/
def envStd : Env := { emptyEnv with findAffiliate := fun _ => .ok (some affStd) }

/-- Environment with a fondo-de-retiro modality name and a fund average of
80000 for the standard affiliate. -/
def envFdr : Env :=
  { envStd with
    findModalityName := fun _ => .ok (some "Sector Activo Fondo de Retiro"),
    findFundAvg := fun _ _ => .ok ⟨true, some ⟨some (.num 80000)⟩⟩ }

def mOportuno : ModalityRaw := ⟨10, 1, "Préstamo Oportuno", some true, none⟩

def mFondoEstacional : ModalityRaw := ⟨11, 1, "Fondo de Retiro Estacional", some true, none⟩

def mComision : ModalityRaw := ⟨12, 1, "Préstamo a Largo Plazo Comisión", some true, none⟩

def mXEstacional : ModalityRaw := ⟨1, 1, "X Estacional", some true, none⟩

def mYAnticipo : ModalityRaw := ⟨2, 1, "Y Anticipo", some true, none⟩

def mZCorto : ModalityRaw := ⟨3, 1, "Z Corto Plazo", some true, none⟩

def rowTerm6 : RawParamsRow := ⟨some 10, none, [("loan_month_term", .num 6)]⟩

def rowTerm24 : RawParamsRow := ⟨some 10, none, [("loan_month_term", .num 24)]⟩

def rowDebtAbc : RawParamsRow := ⟨none, none, [("debt_index", .str "abc")]⟩

def rowTermAbc : RawParamsRow := ⟨none, none, [("loan_month_term", .str "abc")]⟩

def interest12 : InterestRaw := ⟨some (.num 12), none⟩

/-! Shared helper lemmas. -/

/-- The decision chain of the retirement-fund adjustment returns the original
maximum under any of the four guard conditions. -/
theorem adjustCore_eq_max (n : String) (v minq maxq : ℚ)
    (h : matchesFdr n = false ∨ v ≤ 0 ∨ (minq = 0 ∧ maxq = 70000 ∧ v = 130000)
      ∨ maxq ≤ v) :
    adjustCore n (some v) (some minq) (some maxq) = some maxq := by
  unfold adjustCore
  simp only [nfLe, nfGt, nfEq]
  rcases h with h | h | ⟨h₁, h₂, h₃⟩ | h <;>
    split_ifs with g₁ g₂ g₃ g₄ <;> simp_all <;> linarith

/-- The decision chain of the retirement-fund adjustment caps the maximum at
the fund average in the general adjustment case. -/
theorem adjustCore_eq_avg (n : String) (v minq maxq : ℚ)
    (h₁ : matchesFdr n = true) (h₂ : 0 < v)
    (h₃ : ¬(minq = 0 ∧ maxq = 70000 ∧ v = 130000)) (h₄ : v < maxq) :
    adjustCore n (some v) (some minq) (some maxq) = some v := by
  unfold adjustCore
  simp only [nfLe, nfGt, nfEq]
  split_ifs with g₁ g₂ g₃ g₄ <;> simp_all <;> linarith

/-- The period interest computed by `mapToLoanParameters`, in closed form. -/
theorem periodInterest_eq (env : Env) (raw : RawParamsRow) (pid : Nat)
    (aid : Option Nat) (i : Option InterestRaw) :
    (mapToLoanParameters env raw pid aid i).periodInterest
      = (extractAnnualInterest i).map (fun a =>
          ((jsFloorQ ((jsRound ((a /
              (if extractLoanMonthTerm raw > 0 then 12 / extractLoanMonthTerm raw else 12))
              * 10000) : ℚ) / 10000 * 100) : ℚ) / 100)) := by
  cases h : extractAnnualInterest i <;> simp [mapToLoanParameters, h]

/-- Inserting an element into a list commutes with filtering on a sort key:
the inserted element lands exactly at the head of its key class. -/
theorem filter_orderedInsert_key (k : Nat) (x : EnrichedModality)
    (l : List EnrichedModality) :
    (l.orderedInsert modLE x).filter (fun m => m.sortOrder == k)
      = if x.sortOrder == k then x :: l.filter (fun m => m.sortOrder == k)
        else l.filter (fun m => m.sortOrder == k) := by
  induction l with
  | nil =>
    simp only [List.orderedInsert, List.filter]
    split <;> simp_all
  | cons b t ih =>
    rw [List.orderedInsert]
    by_cases hle : modLE x b
    · rw [if_pos hle, List.filter_cons, List.filter_cons]
    · rw [if_neg hle, List.filter_cons, ih, List.filter_cons]
      by_cases hb : (b.sortOrder == k) = true <;>
        by_cases hx : (x.sortOrder == k) = true <;>
        simp_all [modLE]

/-- Insertion sort preserves the relative order of elements sharing a sort
key (stability, stated through `filter`). -/
theorem filter_insertionSort_key (k : Nat) (l : List EnrichedModality) :
    (l.insertionSort modLE).filter (fun m => m.sortOrder == k)
      = l.filter (fun m => m.sortOrder == k) := by
  induction l with
  | nil => rfl
  | cons x t ih =>
    rw [List.insertionSort, filter_orderedInsert_key, ih, List.filter_cons]

/-- C1 (counterexample): in an environment where the affiliate directory
returns no record — a missing affiliate — `getLoanModalities` propagates the
error thrown by `getAffiliateInfo` instead of returning an empty list. -/
theorem C1_counterexample :
    getLoanModalities emptyEnv 7 = Except.error "Error al consultar afiliado"
    ∧ (Except.error "Error al consultar afiliado"
        : Except String (List LoanModalityResponseDto)) ≠ Except.ok [] := by
  exact ⟨rfl, by simp⟩

/-- C1 (amended): `getLoanModalities` returns without error whenever the
affiliate lookup succeeds with a record carrying a (truthy) id and the
modality-catalog fetch succeeds; every further lookup degrades internally.
Ineligibility then yields an empty or partially-populated list, but a missing
affiliate or a failed primary lookup surfaces as an error. -/
theorem C1_amended (env : Env) (affiliateId : Nat) (a : AffiliateRaw)
    (mods : List ModalityRaw)
    (ha : env.findAffiliate affiliateId = .ok (some a))
    (hid : affiliateHasId a = true)
    (hm : env.findModalities = .ok mods) :
    ∃ res, getLoanModalities env affiliateId = .ok res := by
  have h₁ : ∃ info, getAffiliateInfo env affiliateId = .ok info := by
    simp only [getAffiliateInfo, ha, hid, Bool.not_true]
    exact ⟨_, rfl⟩
  obtain ⟨info, h₁⟩ := h₁
  refine ⟨loanModalitiesCore env affiliateId info mods, ?_⟩
  unfold getLoanModalities
  rw [h₁, hm]

/-- C1 (witness): a concrete environment satisfying the hypotheses of the
amended claim. -/
theorem C1_witness : ∃ res, getLoanModalities envStd 7 = .ok res :=
  C1_amended envStd 7 affStd [] rfl rfl rfl

/-- C2: the retirement-fund adjustment keeps the original maximum whenever
the modality name does not match the fondo-de-retiro pattern, or the average
is not positive, or the literal special case (0, 70000, 130000) holds, or the
maximum does not exceed the average; and it returns the average exactly when
the name matches, the average is positive, the special case does not hold and
the maximum exceeds the average. -/
theorem C2_adjust (env : Env) (pid aid : Nat) (minq maxq v : ℚ)
    (nameOpt : Option String)
    (hname : env.findModalityName pid = .ok nameOpt)
    (havg : avgValueOf (getRetirementFundAverage env aid) = some v) :
    ((matchesFdr (nameOpt.getD "") = false ∨ v ≤ 0
        ∨ (minq = 0 ∧ maxq = 70000 ∧ v = 130000) ∨ maxq ≤ v) →
      adjustRetirementFundAmount env pid aid (some minq) (some maxq) = some maxq)
    ∧ ((matchesFdr (nameOpt.getD "") = true ∧ 0 < v
        ∧ ¬(minq = 0 ∧ maxq = 70000 ∧ v = 130000) ∧ v < maxq) →
      adjustRetirementFundAmount env pid aid (some minq) (some maxq) = some v) := by
  have hres : adjustRetirementFundAmount env pid aid (some minq) (some maxq)
      = adjustCore (nameOpt.getD "") (some v) (some minq) (some maxq) := by
    simp only [adjustRetirementFundAmount, hname, havg]
  constructor
  · intro h
    rw [hres]
    exact adjustCore_eq_max _ _ _ _ h
  · rintro ⟨h₁, h₂, h₃, h₄⟩
    rw [hres]
    exact adjustCore_eq_avg _ _ _ _ h₁ h₂ h₃ h₄

/-- C2 (witness): name matching, average 80000, maximum 100000 → adjusted to
80000. -/
theorem C2_witness :
    adjustRetirementFundAmount envFdr 11 7 (some 0) (some 100000) = some 80000 :=
  (C2_adjust envFdr 11 7 0 100000 80000 (some "Sector Activo Fondo de Retiro")
      rfl rfl).2
    ⟨rfl, by norm_num, by norm_num, by norm_num⟩

/-- C3: the period interest equals the annual interest divided by
`periodsPerYear` (12 divided by the loan month term when the term is positive,
12 otherwise), rounded half-up to 4 decimal places and then floored to 2
decimal places; concretely a 6-month term with annual interest 12 yields 2
periods per year and period interest 6. -/
theorem C3_periodInterest :
    (∀ (env : Env) (raw : RawParamsRow) (pid : Nat) (aid : Option Nat)
        (i : Option InterestRaw),
      (mapToLoanParameters env raw pid aid i).periodInterest
        = (extractAnnualInterest i).map (fun a =>
            ((⌊(((⌊(a / (if extractLoanMonthTerm raw > 0
                  then 12 / extractLoanMonthTerm raw else 12)) * 10000 + 1 / 2⌋ : ℤ) : ℚ)
                / 10000) * 100⌋ : ℤ) : ℚ) / 100))
    ∧ extractLoanMonthTerm rowTerm6 = 6
    ∧ (if extractLoanMonthTerm rowTerm6 > 0
        then 12 / extractLoanMonthTerm rowTerm6 else (12 : ℚ)) = 2
    ∧ (mapToLoanParameters emptyEnv rowTerm6 1 none (some interest12)).periodInterest
        = some 6 := by
  refine ⟨?_, by decide, ?_, ?_⟩
  · intro env raw pid aid i
    rw [periodInterest_eq]
    simp only [jsRound, jsFloorQ]
  · rw [show extractLoanMonthTerm rowTerm6 = 6 from rfl]
    norm_num
  · rw [periodInterest_eq]
    rw [show extractLoanMonthTerm rowTerm6 = 6 from rfl]
    rw [show extractAnnualInterest (some interest12) = some 12 from rfl]
    norm_num [jsRound, jsFloorQ]

/-- C4 (counterexample): the state type is compared case-sensitively, so the
classification is not invariant under recasing the inputs: lower-casing
`Activo` flips the result from `Servicio` to `Otro`. -/
theorem C4_counterexample :
    calculateSubsector "activo" "servicio" = "Otro"
    ∧ calculateSubsector "Activo" "servicio" = "Servicio"
    ∧ ("Otro" : String) ≠ "Servicio" := by
  refine ⟨rfl, rfl, by decide⟩

/-- C4 (amended): subsector classification is a deterministic pure function;
the `stateName` pattern matching is case-insensitive (the accented spelling of
comisión being handled explicitly), but `stateType` must match `Activo`,
`Pasivo` or `Baja` exactly, case-sensitively; the pattern tables and their
order are as specified. -/
theorem C4_amended :
    (∀ stateType s t : String, jsToLower s = jsToLower t →
      calculateSubsector stateType s = calculateSubsector stateType t)
    ∧ calculateSubsector "Activo" "EN SERVICIO ACTIVO" = "Servicio"
    ∧ calculateSubsector "Activo" "En Comisión" = "Comision"
    ∧ calculateSubsector "Activo" "en comision" = "Comision"
    ∧ calculateSubsector "Activo" "Disponibilidad A" = "Disponibilidad"
    ∧ calculateSubsector "Pasivo" "JUBILADO INVALIDEZ" = "Jubilado invalidez"
    ∧ calculateSubsector "Pasivo" "Jubilado" = "Jubilado"
    ∧ calculateSubsector "Pasivo" "Fallecido X" = "Fallecido"
    ∧ calculateSubsector "Baja" "cualquiera" = "Baja"
    ∧ calculateSubsector "Pensionado" "con baja temporal" = "Baja"
    ∧ calculateSubsector "" "" = "Otro" := by
  refine ⟨?_, rfl, rfl, rfl, rfl, rfl, rfl, rfl, rfl, rfl, rfl⟩
  intro stateType s t h
  unfold calculateSubsector
  rw [h]

/-- C4 (witness): the case-insensitivity part applied at a concrete input. -/
theorem C4_witness :
    calculateSubsector "Activo" "SERVICIO" = calculateSubsector "Activo" "Servicio" :=
  C4_amended.1 "Activo" "SERVICIO" "Servicio" rfl

/-- C5 (counterexample): the fondo-de-retiro gate is only applied in the
active branch — for a passive affiliate, a modality whose name contains
`fondo` and `retiro` with no `sector` survives filtering (here through the
estacional rule), contradicting the claim that the discard applies regardless
of the state branch. -/
theorem C5_counterexample :
    hasSubstr (normalize "Fondo de Retiro Estacional") "fondo" = true
    ∧ hasSubstr (normalize "Fondo de Retiro Estacional") "retiro" = true
    ∧ hasSubstr (normalize "Fondo de Retiro Estacional") "sector" = false
    ∧ (filterModalitiesByAffiliate [mFondoEstacional] "pasivo" "" "" "").map
        (fun m => m.base.name) = ["Fondo de Retiro Estacional"] := by
  refine ⟨rfl, rfl, rfl, rfl⟩

/-- C5 (amended): the fondo-de-retiro discard applies to active affiliates
only — every modality surviving the filter for a state type containing
`activo` passes the sector-before-fondo gate — and names lacking the
`fondo`+`retiro` pair are unaffected by the gate. -/
theorem C5_amended :
    (∀ (all : List ModalityRaw) (stateType subsector pensionEntity category : String)
        (m : EnrichedModality),
      hasSubstr stateType "activo" = true →
      m ∈ filterModalitiesByAffiliate all stateType subsector pensionEntity category →
      isValidFondoRetiro m.base.name = true)
    ∧ (∀ name : String,
        ¬(hasSubstr (normalize name) "fondo" = true
          ∧ hasSubstr (normalize name) "retiro" = true) →
        isValidFondoRetiro name = true) := by
  constructor
  · intro all stateType subsector pensionEntity category m hact hmem
    simp only [filterModalitiesByAffiliate, eligibleBeforeSort, List.mem_insertionSort,
      List.mem_filter, hact] at hmem
    have hp := hmem.2
    by_cases hv : isValidFondoRetiro m.base.name
    · exact hv
    · simp [eligiblePred, hv] at hp
  · intro name h
    unfold isValidFondoRetiro
    by_cases hf : hasSubstr (normalize name) "fondo" <;>
      by_cases hr : hasSubstr (normalize name) "retiro" <;>
      simp_all

/-- C5 (witness): the active-branch statement applied to a concrete catalog
in which the oportuno modality survives. -/
theorem C5_witness : isValidFondoRetiro (enrichModality mOportuno).base.name = true :=
  C5_amended.1 [mOportuno] "activo" "" "" "" (enrichModality mOportuno) rfl
    (by rw [show filterModalitiesByAffiliate [mOportuno] "activo" "" "" ""
          = [enrichModality mOportuno] from rfl]
        exact List.mem_singleton.mpr rfl)

/-- C6: the comisión branch of the active-affiliate rules tests for the
accented literal in the diacritic-stripped name, so a long-term commission
modality that the claim (and spec) say is included is in fact excluded: the
normalized name contains `largo plazo` and `comision`, yet the filter output
for an active Comision affiliate is empty. -/
theorem C6_dead_branch :
    hasSubstr (normalize "Préstamo a Largo Plazo Comisión") "largo plazo" = true
    ∧ hasSubstr (normalize "Préstamo a Largo Plazo Comisión") "comision" = true
    ∧ matchesActiveConditions (normalize "Préstamo a Largo Plazo Comisión")
        "comision" "" false = false
    ∧ filterModalitiesByAffiliate [mComision] "activo" "Comision" "" "" = [] := by
  refine ⟨rfl, rfl, rfl, rfl⟩

/-- C7 (counterexample): no affiliate profile makes the three example names
all eligible, so the claimed output order `[Anticipo, Corto, Estacional]`
never occurs: for a passive SENASIR affiliate only `X Estacional` survives,
and for an active Servicio affiliate none do. -/
theorem C7_counterexample :
    (filterModalitiesByAffiliate [mXEstacional, mYAnticipo, mZCorto]
        "pasivo" "" "SENASIR" "").map (fun m => m.base.name) = ["X Estacional"]
    ∧ (filterModalitiesByAffiliate [mXEstacional, mYAnticipo, mZCorto]
        "activo" "Servicio" "" "100%").map (fun m => m.base.name) = []
    ∧ (["X Estacional"] : List String)
        ≠ ["Y Anticipo", "Z Corto Plazo", "X Estacional"] := by
  refine ⟨rfl, rfl, by decide⟩

/-- C7 (amended): the filter output is sorted ascending by the derived
`sortOrder` key, and the sort is stable: for every key value, the elements
carrying that key appear in exactly the order in which they survive the
filter (which itself preserves catalog order). -/
theorem C7_amended :
    ∀ (all : List ModalityRaw) (stateType subsector pensionEntity category : String),
      (filterModalitiesByAffiliate all stateType subsector pensionEntity category).Sorted
          modLE
      ∧ ∀ k : Nat,
          (filterModalitiesByAffiliate all stateType subsector pensionEntity
              category).filter (fun m => m.sortOrder == k)
            = (eligibleBeforeSort all stateType subsector pensionEntity category).filter
              (fun m => m.sortOrder == k) := by
  intro all stateType subsector pensionEntity category
  constructor
  · exact List.sorted_insertionSort modLE _
  · intro k
    exact filter_insertionSort_key k _

/-- C8 (counterexample): a 24-month term makes `periodsPerYear = 1/2`, so the
period interest doubles the annual interest: with annual interest 12 the
period interest is 24, violating the claimed magnitude invariant. -/
theorem C8_counterexample :
    (mapToLoanParameters emptyEnv rowTerm24 1 none (some interest12)).periodInterest
        = some 24
    ∧ (mapToLoanParameters emptyEnv rowTerm24 1 none (some interest12)).annualInterest
        = some 12
    ∧ ¬(|(24 : ℚ)| ≤ |(12 : ℚ)|) := by
  refine ⟨?_, rfl, by norm_num⟩
  rw [periodInterest_eq]
  rw [show extractLoanMonthTerm rowTerm24 = 24 from rfl]
  rw [show extractAnnualInterest (some interest12) = some 12 from rfl]
  norm_num [jsRound, jsFloorQ]

/-- C8 (amended): the magnitude bound holds once the term does not exceed 12
months (so that `periodsPerYear ≥ 1`) and the annual interest is nonnegative,
up to the half-ulp the round-to-4-then-floor-to-2 derivation can add:
`0 ≤ periodInterest ≤ annualInterest + 1/20000`. -/
theorem C8_amended (env : Env) (raw : RawParamsRow) (pid : Nat) (aid : Option Nat)
    (i : Option InterestRaw) (a : ℚ)
    (ha : extractAnnualInterest i = some a) (h0 : 0 ≤ a)
    (hm : extractLoanMonthTerm raw ≤ 12) :
    ∃ p : ℚ, (mapToLoanParameters env raw pid aid i).periodInterest = some p
      ∧ 0 ≤ p ∧ p ≤ a + 1 / 20000 := by
  rw [periodInterest_eq, ha]
  simp only [Option.map_some', jsRound, jsFloorQ]
  refine ⟨_, rfl, ?_, ?_⟩ <;>
    set ppy : ℚ := if extractLoanMonthTerm raw > 0
      then 12 / extractLoanMonthTerm raw else 12 with hppy
  all_goals
    have hppy1 : 1 ≤ ppy := by
      rw [hppy]
      split_ifs with h
      · rw [one_le_div h]
        exact hm
      · norm_num
  all_goals
    have hraw0 : 0 ≤ a / ppy :=
      div_nonneg h0 (le_trans zero_le_one hppy1)
  all_goals
    have hc0 : (0 : ℚ) ≤ (⌊a / ppy * 10000 + 1 / 2⌋ : ℚ) / 10000 := by
      apply div_nonneg _ (by norm_num)
      have h₁ : (0 : ℚ) ≤ a / ppy * 10000 + 1 / 2 := by
        have := mul_nonneg hraw0 (by norm_num : (0 : ℚ) ≤ 10000)
        linarith
      exact_mod_cast Int.floor_nonneg.mpr h₁
  · apply div_nonneg _ (by norm_num)
    have h₂ : (0 : ℚ) ≤ (⌊a / ppy * 10000 + 1 / 2⌋ : ℚ) / 10000 * 100 := by
      have := mul_nonneg hc0 (by norm_num : (0 : ℚ) ≤ 100)
      linarith
    exact_mod_cast Int.floor_nonneg.mpr h₂
  · have hrawle : a / ppy ≤ a := div_le_self h0 hppy1
    have hcle : (⌊a / ppy * 10000 + 1 / 2⌋ : ℚ) / 10000 ≤ a / ppy + 1 / 20000 := by
      rw [div_le_iff (by norm_num : (0 : ℚ) < 10000)]
      exact le_trans (Int.floor_le _) (le_of_eq (by ring))
    have hple : (⌊(⌊a / ppy * 10000 + 1 / 2⌋ : ℚ) / 10000 * 100⌋ : ℚ) / 100
        ≤ (⌊a / ppy * 10000 + 1 / 2⌋ : ℚ) / 10000 := by
      rw [div_le_iff (by norm_num : (0 : ℚ) < 100)]
      exact Int.floor_le _
    linarith

/-- C8 (witness): the amended bound at the concrete 6-month, 12-percent row. -/
theorem C8_witness :
    ∃ p : ℚ, (mapToLoanParameters emptyEnv rowTerm6 1 none
        (some interest12)).periodInterest = some p
      ∧ 0 ≤ p ∧ p ≤ 12 + 1 / 20000 :=
  C8_amended emptyEnv rowTerm6 1 none (some interest12) 12 rfl (by norm_num)
    (by rw [show extractLoanMonthTerm rowTerm6 = 6 from rfl]; norm_num)

/-- C9 (counterexample): a malformed numeric string does not yield 0 — it
yields NaN (modelled as `none`), because `Number.parseFloat('abc')` is NaN
and only the loan-month-term field is coerced with `|| 0`. -/
theorem C9_counterexample :
    (mapToLoanParameters emptyEnv rowDebtAbc 1 none none).debtIndex = none
    ∧ (none : NumF) ≠ some 0 := by
  refine ⟨rfl, by simp⟩

/-- C9 (amended): field extraction tries the snake_case key then the
camelCase key, first present non-null key wins: a present non-null first key
is parsed directly, and when the first key is missing or null a present
non-null second key is consulted and parsed instead; keys that are all
missing or null yield 0; but a malformed string yields NaN (not 0) for
ordinary fields, while the loan-month-term extraction coerces that NaN to 0
through `|| 0`; no exception is raised (the extractors are total). -/
theorem C9_amended :
    (∀ (r : List (String × JSValue)) (k₁ k₂ : String) (v : JSValue),
      jsLookup r k₁ = some v → v ≠ JSValue.null →
      getNum r [k₁, k₂] = jsParseFloat v)
    ∧ (∀ (r : List (String × JSValue)) (k₁ k₂ : String) (v : JSValue),
        (jsLookup r k₁ = none ∨ jsLookup r k₁ = some JSValue.null) →
        jsLookup r k₂ = some v → v ≠ JSValue.null →
        getNum r [k₁, k₂] = jsParseFloat v)
    ∧ (∀ (r : List (String × JSValue)) (keys : List String),
        (∀ k ∈ keys, jsLookup r k = none ∨ jsLookup r k = some JSValue.null) →
        getNum r keys = some 0)
    ∧ (mapToLoanParameters emptyEnv rowDebtAbc 1 none none).debtIndex = none
    ∧ (mapToLoanParameters emptyEnv rowTermAbc 1 none none).loanMonthTerm = some 0 := by
  refine ⟨?_, ?_, ?_, rfl, rfl⟩
  · intro r k₁ k₂ v h hv
    unfold getNum
    rw [h]
    simp [hv]
  · intro r k₁ k₂ v h₁ h₂ hv
    have htail : getNum r [k₂] = jsParseFloat v := by
      unfold getNum
      rw [h₂]
      simp [hv]
    rcases h₁ with h₁ | h₁ <;>
      (unfold getNum; rw [h₁]; simp only [reduceIte]; exact htail)
  · intro r keys h
    induction keys with
    | nil => rfl
    | cons k ks ih =>
      have hk := h k (List.mem_cons_self k ks)
      have hks := ih (fun x hx => h x (List.mem_cons_of_mem k hx))
      rcases hk with hk | hk <;> simp [getNum, hk, hks]

/-- C9 (witness): first-present-wins extraction at a concrete present snake
key, and the camelCase fallback at a row where only the camelCase key is
present. -/
theorem C9_witness :
    getNum [("debt_index", JSValue.num 7)] ["debt_index", "debtIndex"] = some 7
    ∧ getNum [("debtIndex", JSValue.num 9)] ["debt_index", "debtIndex"] = some 9 :=
  ⟨(C9_amended.1 [("debt_index", JSValue.num 7)] "debt_index" "debtIndex"
      (JSValue.num 7) rfl (by simp)).trans rfl,
    (C9_amended.2.1 [("debtIndex", JSValue.num 9)] "debt_index" "debtIndex"
      (JSValue.num 9) (Or.inl rfl) rfl (by simp)).trans rfl⟩

/-- C10: the sort key is decided by the first matching token in the fixed
order anticipo, corto, largo, estacional; a name containing several tokens
gets the key of the earliest one, e.g. `Anticipo Estacional` gets 1. -/
theorem C10_sortOrder :
    (∀ name : String, hasSubstr (normalize name) "anticipo" = true →
      getModalitySortOrder name = 1)
    ∧ (∀ name : String, hasSubstr (normalize name) "anticipo" = false →
        hasSubstr (normalize name) "corto" = true → getModalitySortOrder name = 2)
    ∧ (∀ name : String, hasSubstr (normalize name) "anticipo" = false →
        hasSubstr (normalize name) "corto" = false →
        hasSubstr (normalize name) "largo" = true → getModalitySortOrder name = 3)
    ∧ (∀ name : String, hasSubstr (normalize name) "anticipo" = false →
        hasSubstr (normalize name) "corto" = false →
        hasSubstr (normalize name) "largo" = false →
        hasSubstr (normalize name) "estacional" = true → getModalitySortOrder name = 4)
    ∧ (∀ name : String, hasSubstr (normalize name) "anticipo" = false →
        hasSubstr (normalize name) "corto" = false →
        hasSubstr (normalize name) "largo" = false →
        hasSubstr (normalize name) "estacional" = false → getModalitySortOrder name = 5)
    ∧ getModalitySortOrder "Anticipo Estacional" = 1 := by
  refine ⟨?_, ?_, ?_, ?_, ?_, rfl⟩ <;>
    intro name <;> intros <;> simp_all [getModalitySortOrder]

/-- C10 (witness): the first-token rule applied at a concrete multi-token
name. -/
theorem C10_witness : getModalitySortOrder "Anticipo Estacional Especial" = 1 :=
  C10_sortOrder.1 "Anticipo Estacional Especial" rfl

end Svc
